import Mathlib

/-!
Verification of the number-guessing game engine.

The embedding follows the plain DOM script (src/unnamed/part_000), which is
the canonical engine: it owns the whole game state (`gameState`), the level
table (`LEVELS`), guess handling (`makeGuess`, `handleCorrectGuess`,
`handleIncorrectGuess`), session start (`startGame`), and the auxiliary
operations (`changeLevel`, `resetTotalScore`).  The React component
(src/app/components/Game.tsx) duplicates the same logic line for line
(same level table, same `parseInt` call, same validation, same scoring and
hint computation), so the theorems below speak for both renderings of the
engine.

DOM writes become explicit state: the feedback element's text and class
are fields of the state record; `addGuessToHistory` is an append to the
history list.  The victory / game-over screens and sounds are presentation
effects; the data they display is captured in the `GuessOutcome` value a
guess produces.  `Math.random()` becomes an explicit rational parameter in
`[0,1)` supplied to `getRandomNumber`.
-/

/-- Static configuration of one difficulty level (LEVELS entries,
src/unnamed/part_000 lines 4-32). -/
structure LevelConfig where
  name : String
  min : Int
  max : Int
  maxAttempts : Nat
  bonusThreshold : Nat
  baseScore : Nat
  bonusScore : Nat
deriving DecidableEq

/-- The three fixed level names. -/
inductive Level where
  | easy
  | medium
  | hard
deriving DecidableEq

/-- The level table, verbatim from src/unnamed/part_000 lines 4-32 (identical
to the table in src/app/components/Game.tsx lines 20-48). -/
def LEVELS : Level → LevelConfig
  | Level.easy =>
      { name := "Easy", min := 1, max := 50, maxAttempts := 10,
        bonusThreshold := 5, baseScore := 10, bonusScore := 5 }
  | Level.medium =>
      { name := "Medium", min := 1, max := 75, maxAttempts := 7,
        bonusThreshold := 4, baseScore := 10, bonusScore := 5 }
  | Level.hard =>
      { name := "Hard", min := 1, max := 100, maxAttempts := 5,
        bonusThreshold := 3, baseScore := 10, bonusScore := 5 }

/-- One entry of the guess history (a rendered guess chip: `${guess} ${hint}`). -/
structure GuessHistoryEntry where
  guess : Int
  hint : String
deriving DecidableEq

/-- The mutable game state (the `gameState` object, src/unnamed/part_000
lines 37-44) together with the feedback element's text and class, which the
script mutates through `showFeedback` / `resetFeedback`. -/
structure GameState where
  currentLevel : Option Level
  targetNumber : Option Int
  attemptsUsed : Nat
  totalScore : Nat
  guessHistory : List GuessHistoryEntry
  isGameActive : Bool
  feedbackText : String
  feedbackType : String
deriving DecidableEq

/-- The initial state of the script: no level, no target, score 0, inactive.
The feedback element's initial markup content is irrelevant to the engine. -/
def initialGameState : GameState :=
  { currentLevel := none, targetNumber := none, attemptsUsed := 0,
    totalScore := 0, guessHistory := [], isGameActive := false,
    feedbackText := "", feedbackType := "" }

/-- The observable result of one submitGuess call: which feedback /
result-screen path the code took and the data it displays. -/
inductive GuessOutcome where
  | inactive
  | invalid (message : String)
  | outOfRange (message : String)
  | won (attemptsUsed : Nat) (scoreEarned : Nat) (bonusEarned : Bool)
  | lost (target : Int) (attemptsUsed : Nat)
  | miss (direction : String) (attemptsLeft : Int) (severity : String)
deriving DecidableEq

/-- Value of a list of decimal digit characters. -/
def digitsVal (ds : List Char) : Nat :=
  ds.foldl (fun acc c => 10 * acc + (c.toNat - Char.toNat '0')) 0

/-- JavaScript `parseInt(s)` as both implementations call it
(src/unnamed/part_000 line 143, Game.tsx line 152): skip leading
whitespace, read an optional sign, then the longest prefix of decimal
digits; no digits means NaN (`none`).  Everything after the digits —
a decimal point, an exponent, arbitrary text — is ignored, so "3.7"
parses to 3.  (parseInt's automatic radix-16 mode for "0x" prefixes is
omitted: the guess comes from a numeric input field, whose value never
carries such a prefix.) -/
def parseIntJS (str : String) : Option Int :=
  let cs := str.toList.dropWhile (fun c => c.isWhitespace)
  let signed : Int × List Char :=
    match cs with
    | c :: rest =>
        if c = '-' then (-1, rest)
        else if c = '+' then (1, rest)
        else (1, c :: rest)
    | [] => (1, [])
  let digits := signed.2.takeWhile (fun c => c.isDigit)
  if digits.isEmpty then none
  else some (signed.1 * (digitsVal digits : Int))

/-- The `showFeedback(message, type)` helper (src/unnamed/part_000 lines
242-246): overwrite the feedback element's text and class. -/
def showFeedback (message ty : String) (s : GameState) : GameState :=
  { s with feedbackText := message, feedbackType := ty }

/-- Target selection, `getRandomNumber(min, max)` (src/unnamed/part_000
lines 89-91): `Math.floor(Math.random() * (max - min + 1)) + min`, with
`Math.random()` made explicit as a rational `rand` in `[0,1)`. -/
def getRandomNumber (mn mx : Int) (rand : ℚ) : Int :=
  Int.floor (rand * ((mx - mn + 1 : Int) : ℚ)) + mn

/-- The `startGame(level)` operation (src/unnamed/part_000 lines 65-87):
draw a fresh target, zero the attempt counter, clear the history, activate
the session, and reset the feedback line to "Make your first guess!"
(`resetFeedback`, lines 118-122).  The total score is untouched. -/
def startGame (level : Level) (rand : ℚ) (s : GameState) : GameState :=
  let config := LEVELS level
  { s with
      currentLevel := some level,
      targetNumber := some (getRandomNumber config.min config.max rand),
      attemptsUsed := 0,
      guessHistory := [],
      isGameActive := true,
      feedbackText := "Make your first guess!",
      feedbackType := "" }

/-- The winning branch, `handleCorrectGuess()` (src/unnamed/part_000 lines
176-209).  Called after the attempt counter was already incremented:
deactivate the session, award `baseScore` plus `bonusScore` when the
attempt count is within the bonus threshold, add the earnings to the total
score, show the success feedback and append the target with the check-mark
hint to the history. -/
def handleCorrectGuess (level : Level) (target : Int) (s : GameState) :
    GameState × GuessOutcome :=
  let config := LEVELS level
  let s1 := { s with isGameActive := false }
  let bonusEarned : Bool := decide (s1.attemptsUsed ≤ config.bonusThreshold)
  let scoreEarned :=
    if s1.attemptsUsed ≤ config.bonusThreshold
    then config.baseScore + config.bonusScore
    else config.baseScore
  let message :=
    "🎉 Correct! You guessed it in " ++ toString s1.attemptsUsed ++ " " ++
      (if s1.attemptsUsed = 1 then "attempt" else "attempts") ++ "!" ++
      (if bonusEarned then " Bonus score earned! 🌟" else "")
  let s2 :=
    { showFeedback message "success" s1 with
        totalScore := s1.totalScore + scoreEarned,
        guessHistory := s1.guessHistory ++ [{ guess := target, hint := "✓" }] }
  (s2, GuessOutcome.won s1.attemptsUsed scoreEarned bonusEarned)

/-- The wrong-guess branch, `handleIncorrectGuess(guess, config)`
(src/unnamed/part_000 lines 211-240).  Called after the attempt counter was
already incremented.  With no attempt left the session ends: game-over
feedback, the losing guess recorded with the cross-mark hint.  Otherwise a
directional hint (up-arrow when the guess is below the target, down-arrow
when above) with warning severity once at most two attempts remain. -/
def handleIncorrectGuess (guess : Int) (level : Level) (target : Int)
    (s : GameState) : GameState × GuessOutcome :=
  let config := LEVELS level
  let attemptsLeft : Int := (config.maxAttempts : Int) - (s.attemptsUsed : Int)
  if attemptsLeft = 0 then
    let s1 :=
      { showFeedback ("❌ Game Over! The number was " ++ toString target)
          "error" { s with isGameActive := false } with
          guessHistory := s.guessHistory ++ [{ guess := guess, hint := "✗" }] }
    (s1, GuessOutcome.lost target s.attemptsUsed)
  else
    let hint := if guess < target then "↑" else "↓"
    let comparison := if guess < target then "lower" else "higher"
    let feedbackKind := if attemptsLeft ≤ 2 then "warning" else "info"
    let message :=
      "Your guess (" ++ toString guess ++ ") is " ++ comparison ++
        " than the number! " ++ toString attemptsLeft ++ " " ++
        (if attemptsLeft = 1 then "attempt" else "attempts") ++ " remaining"
    let s1 :=
      { showFeedback message feedbackKind s with
          guessHistory := s.guessHistory ++ [{ guess := guess, hint := hint }] }
    (s1, GuessOutcome.miss hint attemptsLeft feedbackKind)

/-- The `makeGuess()` operation (src/unnamed/part_000 lines 139-174):
defensive no-op when the session is inactive; parse the raw input with
`parseInt`; reject an unparseable value and an out-of-range value without
consuming an attempt; otherwise count the attempt and dispatch to the
correct / incorrect handler.  The catch-all branch corresponds to a state
the script can never reach through its own operations (active session with
no level or no target — there `LEVELS[currentLevel]` would be undefined and
the property access would throw); the reachability invariant below proves
it is indeed never entered. -/
def makeGuess (input : String) (s : GameState) : GameState × GuessOutcome :=
  if s.isGameActive = false then (s, GuessOutcome.inactive)
  else
    match s.currentLevel, s.targetNumber with
    | some level, some target =>
      let config := LEVELS level
      match parseIntJS input with
      | none =>
          (showFeedback "Please enter a valid number!" "error" s,
           GuessOutcome.invalid "Please enter a valid number!")
      | some guess =>
          if guess < config.min ∨ guess > config.max then
            let msg := "Number must be between " ++ toString config.min ++
              " and " ++ toString config.max ++ "!"
            (showFeedback msg "error" s, GuessOutcome.outOfRange msg)
          else
            let s1 := { s with attemptsUsed := s.attemptsUsed + 1 }
            if guess = target then
              handleCorrectGuess level target s1
            else
              handleIncorrectGuess guess level target s1
    | _, _ => (s, GuessOutcome.inactive)

/-- The `changeLevel()` operation (src/unnamed/part_000 lines 300-305):
drop the level and deactivate the session; score, attempts, history and
target are untouched. -/
def changeLevel (s : GameState) : GameState :=
  { s with currentLevel := none, isGameActive := false }

/-- The `resetTotalScore()` operation (src/unnamed/part_000 lines 430-435).
The `confirmed` flag models the user's answer to the `confirm()` dialog;
once confirmed the score is cleared unconditionally and nothing else
changes. -/
def resetTotalScore (confirmed : Bool) (s : GameState) : GameState :=
  if confirmed then { s with totalScore := 0 } else s

/-- One user-triggered engine operation, for reasoning about arbitrary
interaction sequences. -/
inductive EngineOp where
  | start (level : Level) (rand : ℚ)
  | guess (input : String)
  | changeLvl
  | reset (confirmed : Bool)

/-- Apply one operation to the state (the outcome of a guess is observable
but not part of the persisted state). -/
def applyOp (s : GameState) : EngineOp → GameState
  | EngineOp.start level rand => startGame level rand s
  | EngineOp.guess input => (makeGuess input s).1
  | EngineOp.changeLvl => changeLevel s
  | EngineOp.reset confirmed => resetTotalScore confirmed s

/-- The state after running a sequence of operations from the initial
state. -/
def run (ops : List EngineOp) : GameState :=
  ops.foldl applyOp initialGameState

/-- Executable session invariant: the history length always equals the
attempt counter, the attempt counter never exceeds the selected level's
budget, and an active session has a level and a target with at least one
attempt still available. -/
def sessionInv (s : GameState) : Bool :=
  (s.guessHistory.length == s.attemptsUsed) &&
  (match s.currentLevel with
   | some level => decide (s.attemptsUsed ≤ (LEVELS level).maxAttempts)
   | none => true) &&
  (!s.isGameActive ||
    (match s.currentLevel, s.targetNumber with
     | some level, some _ => decide (s.attemptsUsed < (LEVELS level).maxAttempts)
     | _, _ => false))

/-- Concrete active hard-level session used as a sample input: target 7,
four wrong guesses already made. -/
def sHard4 : GameState :=
  { currentLevel := some Level.hard, targetNumber := some 7, attemptsUsed := 4,
    totalScore := 0,
    guessHistory :=
      [{ guess := 1, hint := "↑" }, { guess := 2, hint := "↑" },
       { guess := 3, hint := "↑" }, { guess := 4, hint := "↑" }],
    isGameActive := true, feedbackText := "", feedbackType := "warning" }

/-- Concrete freshly started hard-level session used as a sample input:
target 7, no guess yet. -/
def sHard0 : GameState :=
  { currentLevel := some Level.hard, targetNumber := some 7, attemptsUsed := 0,
    totalScore := 0, guessHistory := [], isGameActive := true,
    feedbackText := "Make your first guess!", feedbackType := "" }

lemma maxAttempts_pos (level : Level) : 0 < (LEVELS level).maxAttempts := by
  cases level <;> decide

lemma levels_min_le_max (level : Level) : (LEVELS level).min ≤ (LEVELS level).max := by
  cases level <;> decide

lemma getRandomNumber_bounds (mn mx : Int) (rand : ℚ) (hle : mn ≤ mx)
    (h0 : 0 ≤ rand) (h1 : rand < 1) :
    mn ≤ getRandomNumber mn mx rand ∧ getRandomNumber mn mx rand ≤ mx := by
  have hpos : (0 : ℚ) < ((mx - mn + 1 : Int) : ℚ) := by
    push_cast
    have : (mn : ℚ) ≤ (mx : ℚ) := by exact_mod_cast hle
    linarith
  constructor
  · have h2 : (0 : Int) ≤ Int.floor (rand * ((mx - mn + 1 : Int) : ℚ)) :=
      Int.floor_nonneg.mpr (mul_nonneg h0 (le_of_lt hpos))
    unfold getRandomNumber
    omega
  · have h3 : Int.floor (rand * ((mx - mn + 1 : Int) : ℚ)) < mx - mn + 1 := by
      rw [Int.floor_lt]
      have := mul_lt_mul_of_pos_right h1 hpos
      simpa using this
    unfold getRandomNumber
    omega

lemma isDigit_not_whitespace {c : Char} (h : c.isDigit = true) :
    c.isWhitespace = false := by
  by_contra hw
  rw [Bool.not_eq_false] at hw
  simp only [Char.isWhitespace, Bool.or_eq_true, decide_eq_true_eq] at hw
  rcases hw with ((h1 | h1) | h1) | h1 <;> subst h1 <;>
    exact absurd h (by decide)

lemma isDigit_ne_minus {c : Char} (h : c.isDigit = true) : c ≠ '-' := by
  intro hEq
  subst hEq
  exact absurd h (by decide)

lemma isDigit_ne_plus {c : Char} (h : c.isDigit = true) : c ≠ '+' := by
  intro hEq
  subst hEq
  exact absurd h (by decide)

lemma takeWhile_digits_dot (ds rest : List Char)
    (hds : ∀ c ∈ ds, c.isDigit = true) :
    (ds ++ '.' :: rest).takeWhile (fun c => c.isDigit) = ds := by
  induction ds with
  | nil => simp [List.takeWhile_cons]
  | cons d t ih =>
    have hd : d.isDigit = true := hds d (List.mem_cons_self d t)
    have ht := ih (fun c hc => hds c (List.mem_cons_of_mem d hc))
    simp [List.takeWhile_cons, hd, ht]

lemma takeWhile_digits_all (ds : List Char)
    (hds : ∀ c ∈ ds, c.isDigit = true) :
    ds.takeWhile (fun c => c.isDigit) = ds := by
  induction ds with
  | nil => rfl
  | cons d t ih =>
    have hd : d.isDigit = true := hds d (List.mem_cons_self d t)
    have ht := ih (fun c hc => hds c (List.mem_cons_of_mem d hc))
    simp [List.takeWhile_cons, hd, ht]

lemma parseIntJS_mk_cons (d : Char) (u : List Char) (hd : d.isDigit = true) :
    parseIntJS (String.mk (d :: u)) =
      some ((digitsVal ((d :: u).takeWhile (fun c => c.isDigit)) : Int)) := by
  have hw : d.isWhitespace = false := isDigit_not_whitespace hd
  unfold parseIntJS
  simp only [String.toList, List.dropWhile_cons, hw, Bool.false_eq_true,
    if_false]
  rw [if_neg (isDigit_ne_minus hd), if_neg (isDigit_ne_plus hd)]
  simp [List.takeWhile_cons, hd]

lemma parseIntJS_mk_neg (d : Char) (u : List Char) (hd : d.isDigit = true) :
    parseIntJS (String.mk ('-' :: d :: u)) =
      some (-(digitsVal ((d :: u).takeWhile (fun c => c.isDigit)) : Int)) := by
  have hwm : ('-').isWhitespace = false := by decide
  unfold parseIntJS
  simp only [String.toList, List.dropWhile_cons, hwm, Bool.false_eq_true,
    if_false]
  simp [List.takeWhile_cons, hd]

lemma parseIntJS_mk_plus (d : Char) (u : List Char) (hd : d.isDigit = true) :
    parseIntJS (String.mk ('+' :: d :: u)) =
      some ((digitsVal ((d :: u).takeWhile (fun c => c.isDigit)) : Int)) := by
  have hwp : ('+').isWhitespace = false := by decide
  unfold parseIntJS
  simp only [String.toList, List.dropWhile_cons, hwp, Bool.false_eq_true,
    if_false]
  simp [List.takeWhile_cons, hd]

lemma makeGuess_eq_invalid (s : GameState) (level : Level) (target : Int)
    (input : String) (hA : s.isGameActive = true) (hL : s.currentLevel = some level)
    (hT : s.targetNumber = some target) (hN : parseIntJS input = none) :
    makeGuess input s =
      (showFeedback "Please enter a valid number!" "error" s,
       GuessOutcome.invalid "Please enter a valid number!") := by
  rw [makeGuess]
  simp [hA, hL, hT, hN]

lemma makeGuess_eq_outOfRange (s : GameState) (level : Level) (target g : Int)
    (input : String) (hA : s.isGameActive = true) (hL : s.currentLevel = some level)
    (hT : s.targetNumber = some target) (hP : parseIntJS input = some g)
    (hr : g < (LEVELS level).min ∨ g > (LEVELS level).max) :
    makeGuess input s =
      (showFeedback ("Number must be between " ++ toString (LEVELS level).min ++
         " and " ++ toString (LEVELS level).max ++ "!") "error" s,
       GuessOutcome.outOfRange ("Number must be between " ++
         toString (LEVELS level).min ++ " and " ++ toString (LEVELS level).max ++ "!")) := by
  rw [makeGuess]
  simp [hA, hL, hT, hP, hr]

lemma makeGuess_eq_correct (s : GameState) (level : Level) (target g : Int)
    (input : String) (hA : s.isGameActive = true) (hL : s.currentLevel = some level)
    (hT : s.targetNumber = some target) (hP : parseIntJS input = some g)
    (hlo : ¬ g < (LEVELS level).min) (hhi : ¬ g > (LEVELS level).max)
    (heq : g = target) :
    makeGuess input s =
      handleCorrectGuess level target { s with attemptsUsed := s.attemptsUsed + 1 } := by
  subst heq
  rw [makeGuess]
  simp [hA, hL, hT, hP, hlo, hhi]

lemma makeGuess_eq_incorrect (s : GameState) (level : Level) (target g : Int)
    (input : String) (hA : s.isGameActive = true) (hL : s.currentLevel = some level)
    (hT : s.targetNumber = some target) (hP : parseIntJS input = some g)
    (hlo : ¬ g < (LEVELS level).min) (hhi : ¬ g > (LEVELS level).max)
    (hne : g ≠ target) :
    makeGuess input s =
      handleIncorrectGuess g level target { s with attemptsUsed := s.attemptsUsed + 1 } := by
  rw [makeGuess]
  simp [hA, hL, hT, hP, hlo, hhi, hne]

lemma sessionInv_destruct {s : GameState} (h : sessionInv s = true) :
    s.guessHistory.length = s.attemptsUsed ∧
    (∀ level, s.currentLevel = some level →
      s.attemptsUsed ≤ (LEVELS level).maxAttempts) ∧
    (s.isGameActive = true → s.currentLevel.isSome ∧ s.targetNumber.isSome) ∧
    (s.isGameActive = true → ∀ level, s.currentLevel = some level →
      s.attemptsUsed < (LEVELS level).maxAttempts) := by
  obtain ⟨cl, tn, au, ts, gh, ga, ft, fk⟩ := s
  cases cl <;> cases tn <;> cases ga <;> simp_all [sessionInv]

lemma sessionInv_construct (s : GameState)
    (h1 : s.guessHistory.length = s.attemptsUsed)
    (h2 : ∀ level, s.currentLevel = some level →
      s.attemptsUsed ≤ (LEVELS level).maxAttempts)
    (h3 : s.isGameActive = true → ∃ level target,
      s.currentLevel = some level ∧ s.targetNumber = some target ∧
      s.attemptsUsed < (LEVELS level).maxAttempts) :
    sessionInv s = true := by
  obtain ⟨cl, tn, au, ts, gh, ga, ft, fk⟩ := s
  cases cl <;> cases tn <;> cases ga <;> simp_all [sessionInv]

lemma sessionInv_startGame (level : Level) (rand : ℚ) (s : GameState) :
    sessionInv (startGame level rand s) = true := by
  cases level <;> rfl

lemma sessionInv_changeLevel (s : GameState) (h : sessionInv s = true) :
    sessionInv (changeLevel s) = true := by
  obtain ⟨h1, h2, h3, h4⟩ := sessionInv_destruct h
  apply sessionInv_construct
  · simpa [changeLevel] using h1
  · intro level hL
    simp [changeLevel] at hL
  · intro hA
    simp [changeLevel] at hA

lemma sessionInv_resetTotalScore (confirmed : Bool) (s : GameState)
    (h : sessionInv s = true) : sessionInv (resetTotalScore confirmed s) = true := by
  cases confirmed <;> exact h

lemma sessionInv_makeGuess (input : String) (s : GameState)
    (h : sessionInv s = true) : sessionInv (makeGuess input s).1 = true := by
  obtain ⟨h1, h2, h3, h4⟩ := sessionInv_destruct h
  cases hA : s.isGameActive with
  | false =>
    have : makeGuess input s = (s, GuessOutcome.inactive) := by
      rw [makeGuess]
      simp [hA]
    rw [this]
    exact h
  | true =>
    obtain ⟨hLs, hTs⟩ := h3 hA
    obtain ⟨level, hL⟩ := Option.isSome_iff_exists.mp hLs
    obtain ⟨target, hT⟩ := Option.isSome_iff_exists.mp hTs
    have hlt := h4 hA level hL
    cases hP : parseIntJS input with
    | none =>
      rw [makeGuess_eq_invalid s level target input hA hL hT hP]
      apply sessionInv_construct
      · simpa [showFeedback] using h1
      · intro level' hL'
        simp [showFeedback] at hL'
        exact h2 level' hL'
      · intro hA'
        refine ⟨level, target, ?_, ?_, ?_⟩ <;> simp [showFeedback, hL, hT]
        omega
    | some g =>
      by_cases hr : g < (LEVELS level).min ∨ g > (LEVELS level).max
      · rw [makeGuess_eq_outOfRange s level target g input hA hL hT hP hr]
        apply sessionInv_construct
        · simpa [showFeedback] using h1
        · intro level' hL'
          simp [showFeedback] at hL'
          exact h2 level' hL'
        · intro hA'
          refine ⟨level, target, ?_, ?_, ?_⟩ <;> simp [showFeedback, hL, hT]
          omega
      · obtain ⟨hlo, hhi⟩ := not_or.mp hr
        by_cases hg : g = target
        · rw [makeGuess_eq_correct s level target g input hA hL hT hP hlo hhi hg]
          simp only [handleCorrectGuess]
          apply sessionInv_construct
          · simp [showFeedback, h1]
          · intro level' hL'
            simp [showFeedback] at hL'
            rw [hL] at hL'
            cases hL'
            simp [showFeedback]
            omega
          · intro hA'
            simp [showFeedback] at hA'
        · rw [makeGuess_eq_incorrect s level target g input hA hL hT hP hlo hhi hg]
          simp only [handleIncorrectGuess]
          split
          next hz =>
            apply sessionInv_construct
            · simp [showFeedback, h1]
            · intro level' hL'
              simp [showFeedback] at hL'
              rw [hL] at hL'
              cases hL'
              simp [showFeedback]
              omega
            · intro hA'
              simp [showFeedback] at hA'
          next hz =>
            apply sessionInv_construct
            · simp [showFeedback, h1]
            · intro level' hL'
              simp [showFeedback] at hL'
              rw [hL] at hL'
              cases hL'
              simp [showFeedback]
              omega
            · intro hA'
              refine ⟨level, target, ?_, ?_, ?_⟩ <;> simp [showFeedback, hL, hT]
              simp [showFeedback] at hz
              omega

lemma applyOp_inv (s : GameState) (op : EngineOp) (h : sessionInv s = true) :
    sessionInv (applyOp s op) = true := by
  cases op with
  | start level rand => exact sessionInv_startGame level rand s
  | guess input => exact sessionInv_makeGuess input s h
  | changeLvl => exact sessionInv_changeLevel s h
  | reset confirmed => exact sessionInv_resetTotalScore confirmed s h

lemma run_inv (ops : List EngineOp) : sessionInv (run ops) = true := by
  have key : ∀ (l : List EngineOp) (s : GameState), sessionInv s = true →
      sessionInv (l.foldl applyOp s) = true := by
    intro l
    induction l with
    | nil => intro s hs; exact hs
    | cons op rest ih => intro s hs; exact ih _ (applyOp_inv s op hs)
  exact key ops initialGameState (by decide)

/-- C2: whenever the session is not active (initially, after a win, a loss,
or changeLevel), makeGuess is a complete no-op: the state is returned
untouched and no guess is evaluated, only the defensive "inactive" outcome
is produced. -/
theorem makeGuess_inactive_noop (input : String) (s : GameState)
    (h : s.isGameActive = false) :
    makeGuess input s = (s, GuessOutcome.inactive) := by
  rw [makeGuess]
  simp [h]

/-- Witness for C2 at the initial state and input "7". -/
theorem makeGuess_inactive_noop_witness :
    initialGameState.isGameActive = false ∧
    makeGuess "7" initialGameState = (initialGameState, GuessOutcome.inactive) :=
  ⟨rfl, makeGuess_inactive_noop "7" initialGameState rfl⟩

/-- C9: confirmed resetTotalScore zeroes the total score whatever its prior
value and leaves the session fields (level, target, attempts, history,
active flag) untouched. -/
theorem resetTotalScore_only_clears_score (s : GameState) :
    (resetTotalScore true s).totalScore = 0 ∧
    (resetTotalScore true s).currentLevel = s.currentLevel ∧
    (resetTotalScore true s).targetNumber = s.targetNumber ∧
    (resetTotalScore true s).attemptsUsed = s.attemptsUsed ∧
    (resetTotalScore true s).guessHistory = s.guessHistory ∧
    (resetTotalScore true s).isGameActive = s.isGameActive := by
  simp [resetTotalScore]

/-- C8 counterexample: the input ".7" has a fractional part, yet parseInt
does not truncate it to an integer — it rejects it as NaN (the digit prefix
before the decimal point is empty), and makeGuess reports it invalid
without consuming an attempt. -/
theorem fractional_without_integer_part_rejected :
    parseIntJS ".7" = none ∧
    (makeGuess ".7" sHard0).2 =
      GuessOutcome.invalid "Please enter a valid number!" ∧
    (makeGuess ".7" sHard0).1.attemptsUsed = sHard0.attemptsUsed :=
  ⟨by decide, by decide, by decide⟩

/-- C8 (amended): every fractional input whose integer part is a nonempty
digit sequence — optionally preceded by a sign — is parsed by
truncating-integer-parse: the value is that of the digits before the
decimal point (sign applied), whatever follows the point, never rounded,
and makeGuess treats such an input exactly like its integer part alone.
Both implementations call the identical parseInt, so the rule covers both.
A fractional string with no integer-part digits, such as ".7", is instead
rejected as invalid (see the counterexample above). -/
theorem parseIntJS_truncates_fractional :
    (∀ (d : Char) (ds rest : List Char), d.isDigit = true →
      (∀ c ∈ ds, c.isDigit = true) →
      parseIntJS (String.mk (d :: (ds ++ '.' :: rest))) =
        some ((digitsVal (d :: ds) : Int)) ∧
      parseIntJS (String.mk (d :: ds)) = some ((digitsVal (d :: ds) : Int)) ∧
      parseIntJS (String.mk ('-' :: d :: (ds ++ '.' :: rest))) =
        some (-(digitsVal (d :: ds) : Int)) ∧
      parseIntJS (String.mk ('+' :: d :: (ds ++ '.' :: rest))) =
        some ((digitsVal (d :: ds) : Int)) ∧
      ∀ s : GameState,
        makeGuess (String.mk (d :: (ds ++ '.' :: rest))) s =
          makeGuess (String.mk (d :: ds)) s) ∧
    parseIntJS "3.7" = some 3 ∧ parseIntJS "3.7" ≠ some 4 ∧
    parseIntJS "12.99" = some 12 ∧ parseIntJS "12.99" ≠ some 13 ∧
    parseIntJS "-3.7" = some (-3) ∧ parseIntJS ".7" = none := by
  refine ⟨?_, by decide, by decide, by decide, by decide, by decide, by decide⟩
  intro d ds rest hd hds
  have hcons : ∀ c ∈ d :: ds, c.isDigit = true := by
    intro c hc
    rcases List.mem_cons.mp hc with h | h
    · subst h
      exact hd
    · exact hds c h
  have htd := takeWhile_digits_dot (d :: ds) rest hcons
  have hta := takeWhile_digits_all (d :: ds) hcons
  simp only [List.cons_append] at htd
  have h1 : parseIntJS (String.mk (d :: (ds ++ '.' :: rest))) =
      some ((digitsVal (d :: ds) : Int)) := by
    rw [parseIntJS_mk_cons d (ds ++ '.' :: rest) hd, htd]
  have h2 : parseIntJS (String.mk (d :: ds)) =
      some ((digitsVal (d :: ds) : Int)) := by
    rw [parseIntJS_mk_cons d ds hd, hta]
  refine ⟨h1, h2, ?_, ?_, ?_⟩
  · rw [parseIntJS_mk_neg d (ds ++ '.' :: rest) hd, htd]
  · rw [parseIntJS_mk_plus d (ds ++ '.' :: rest) hd, htd]
  · intro s
    unfold makeGuess
    rw [h1, h2]

/-- Witness for C8: the fractional input "12.99" truncates to 12 (and its
signed variants to the signed value), identically to the input "12". -/
theorem parseIntJS_truncates_fractional_witness :
    ('1').isDigit = true ∧ (∀ c ∈ ['2'], c.isDigit = true) ∧
    (parseIntJS (String.mk ('1' :: (['2'] ++ '.' :: ['9', '9']))) =
       some ((digitsVal ('1' :: ['2']) : Int)) ∧
     parseIntJS (String.mk ('1' :: ['2'])) =
       some ((digitsVal ('1' :: ['2']) : Int)) ∧
     parseIntJS (String.mk ('-' :: '1' :: (['2'] ++ '.' :: ['9', '9']))) =
       some (-(digitsVal ('1' :: ['2']) : Int)) ∧
     parseIntJS (String.mk ('+' :: '1' :: (['2'] ++ '.' :: ['9', '9']))) =
       some ((digitsVal ('1' :: ['2']) : Int)) ∧
     ∀ s : GameState,
       makeGuess (String.mk ('1' :: (['2'] ++ '.' :: ['9', '9']))) s =
         makeGuess (String.mk ('1' :: ['2'])) s) :=
  ⟨by decide, by decide,
   parseIntJS_truncates_fractional.1 '1' ['2'] ['9', '9'] (by decide)
     (by decide)⟩

/-- C7: startGame(level) always selects a target inside the level's
inclusive range, zeroes the attempt counter, clears the history, activates
the session and resets the feedback line, whatever session state (fresh or
mid-game) it starts from; the total score carries over. -/
theorem startGame_initializes_session (level : Level) (rand : ℚ)
    (s : GameState) (h0 : 0 ≤ rand) (h1 : rand < 1) :
    (startGame level rand s).currentLevel = some level ∧
    (∃ t, (startGame level rand s).targetNumber = some t ∧
      (LEVELS level).min ≤ t ∧ t ≤ (LEVELS level).max) ∧
    (startGame level rand s).attemptsUsed = 0 ∧
    (startGame level rand s).guessHistory = [] ∧
    (startGame level rand s).isGameActive = true ∧
    (startGame level rand s).feedbackText = "Make your first guess!" ∧
    (startGame level rand s).totalScore = s.totalScore := by
  obtain ⟨hlo, hhi⟩ := getRandomNumber_bounds (LEVELS level).min
    (LEVELS level).max rand (levels_min_le_max level) h0 h1
  exact ⟨rfl, ⟨_, rfl, hlo, hhi⟩, rfl, rfl, rfl, rfl, rfl⟩

/-- Witness for C7: starting an easy game from scratch with rand = 0. -/
theorem startGame_initializes_session_witness :
    (0 : ℚ) ≤ 0 ∧ (0 : ℚ) < 1 ∧
    ((startGame Level.easy 0 initialGameState).currentLevel = some Level.easy ∧
     (∃ t, (startGame Level.easy 0 initialGameState).targetNumber = some t ∧
       (LEVELS Level.easy).min ≤ t ∧ t ≤ (LEVELS Level.easy).max) ∧
     (startGame Level.easy 0 initialGameState).attemptsUsed = 0 ∧
     (startGame Level.easy 0 initialGameState).guessHistory = [] ∧
     (startGame Level.easy 0 initialGameState).isGameActive = true ∧
     (startGame Level.easy 0 initialGameState).feedbackText =
       "Make your first guess!" ∧
     (startGame Level.easy 0 initialGameState).totalScore =
       initialGameState.totalScore) :=
  ⟨le_refl 0, by norm_num,
   startGame_initializes_session Level.easy 0 initialGameState (le_refl 0)
     (by norm_num)⟩

/-- C3: in an active session an unparseable input yields the exact message
"Please enter a valid number!" and an in-parse but out-of-range value the
exact message "Number must be between {min} and {max}!", and in both cases
no attempt is consumed: attempts, history, active flag, target and total
score are all unchanged. -/
theorem makeGuess_rejects_without_consuming (s s' : GameState) (level : Level)
    (target : Int) (input : String) (out : GuessOutcome)
    (hA : s.isGameActive = true) (hL : s.currentLevel = some level)
    (hT : s.targetNumber = some target)
    (hRun : makeGuess input s = (s', out))
    (hBad : parseIntJS input = none ∨
      ∃ g, parseIntJS input = some g ∧
        (g < (LEVELS level).min ∨ g > (LEVELS level).max)) :
    (parseIntJS input = none →
      out = GuessOutcome.invalid "Please enter a valid number!") ∧
    (∀ g, parseIntJS input = some g →
      (g < (LEVELS level).min ∨ g > (LEVELS level).max) →
      out = GuessOutcome.outOfRange ("Number must be between " ++
        toString (LEVELS level).min ++ " and " ++
        toString (LEVELS level).max ++ "!")) ∧
    s'.attemptsUsed = s.attemptsUsed ∧
    s'.guessHistory = s.guessHistory ∧
    s'.isGameActive = s.isGameActive ∧
    s'.targetNumber = s.targetNumber ∧
    s'.totalScore = s.totalScore := by
  rcases hBad with hN | ⟨g, hg, hrange⟩
  · rw [makeGuess_eq_invalid s level target input hA hL hT hN] at hRun
    simp only [Prod.mk.injEq] at hRun
    obtain ⟨hs, ho⟩ := hRun
    subst hs
    subst ho
    refine ⟨fun _ => rfl, ?_, ?_, ?_, ?_, ?_, ?_⟩ <;>
      simp [showFeedback]
    intro g' hg'
    rw [hN] at hg'
    cases hg'
  · rw [makeGuess_eq_outOfRange s level target g input hA hL hT hg hrange]
      at hRun
    simp only [Prod.mk.injEq] at hRun
    obtain ⟨hs, ho⟩ := hRun
    subst hs
    subst ho
    refine ⟨?_, ?_, ?_, ?_, ?_, ?_, ?_⟩ <;> simp [showFeedback]
    intro hN'
    rw [hN'] at hg
    cases hg

/-- Witness for C3 in a fresh hard session with the unparseable input "abc". -/
theorem makeGuess_rejects_without_consuming_witness :
    sHard0.isGameActive = true ∧ sHard0.currentLevel = some Level.hard ∧
    sHard0.targetNumber = some 7 ∧ parseIntJS "abc" = none ∧
    ((parseIntJS "abc" = none →
      (makeGuess "abc" sHard0).2 = GuessOutcome.invalid "Please enter a valid number!") ∧
     (∀ g, parseIntJS "abc" = some g →
      (g < (LEVELS Level.hard).min ∨ g > (LEVELS Level.hard).max) →
      (makeGuess "abc" sHard0).2 = GuessOutcome.outOfRange ("Number must be between " ++
        toString (LEVELS Level.hard).min ++ " and " ++
        toString (LEVELS Level.hard).max ++ "!")) ∧
     (makeGuess "abc" sHard0).1.attemptsUsed = sHard0.attemptsUsed ∧
     (makeGuess "abc" sHard0).1.guessHistory = sHard0.guessHistory ∧
     (makeGuess "abc" sHard0).1.isGameActive = sHard0.isGameActive ∧
     (makeGuess "abc" sHard0).1.targetNumber = sHard0.targetNumber ∧
     (makeGuess "abc" sHard0).1.totalScore = sHard0.totalScore) :=
  ⟨rfl, rfl, rfl, by decide,
   makeGuess_rejects_without_consuming sHard0 _ Level.hard 7 "abc" _ rfl rfl rfl
     rfl (Or.inl (by decide))⟩

/-- C4: in an active session, an in-range guess equal to the target always
wins: the session is deactivated regardless of remaining attempts, the
score earned is baseScore plus bonusScore exactly when the incremented
attempt count is within the bonus threshold, the earnings are added to the
total score, and the target is appended to the history with the check-mark
hint. -/
theorem makeGuess_correct_wins (s s' : GameState) (level : Level)
    (target g : Int) (input : String) (out : GuessOutcome)
    (hA : s.isGameActive = true) (hL : s.currentLevel = some level)
    (hT : s.targetNumber = some target) (hP : parseIntJS input = some g)
    (hlo : ¬ g < (LEVELS level).min) (hhi : ¬ g > (LEVELS level).max)
    (heq : g = target)
    (hRun : makeGuess input s = (s', out)) :
    s'.isGameActive = false ∧
    s'.attemptsUsed = s.attemptsUsed + 1 ∧
    out = GuessOutcome.won (s.attemptsUsed + 1)
      (if s.attemptsUsed + 1 ≤ (LEVELS level).bonusThreshold
       then (LEVELS level).baseScore + (LEVELS level).bonusScore
       else (LEVELS level).baseScore)
      (decide (s.attemptsUsed + 1 ≤ (LEVELS level).bonusThreshold)) ∧
    s'.totalScore = s.totalScore +
      (if s.attemptsUsed + 1 ≤ (LEVELS level).bonusThreshold
       then (LEVELS level).baseScore + (LEVELS level).bonusScore
       else (LEVELS level).baseScore) ∧
    s'.guessHistory = s.guessHistory ++ [{ guess := target, hint := "✓" }] := by
  rw [makeGuess_eq_correct s level target g input hA hL hT hP hlo hhi heq]
    at hRun
  simp only [handleCorrectGuess, Prod.mk.injEq] at hRun
  obtain ⟨hs, ho⟩ := hRun
  subst hs
  subst ho
  refine ⟨?_, ?_, ?_, ?_, ?_⟩ <;> simp [showFeedback]

/-- Witness for C4: winning the fresh hard session with the first guess. -/
theorem makeGuess_correct_wins_witness :
    sHard0.isGameActive = true ∧ sHard0.currentLevel = some Level.hard ∧
    sHard0.targetNumber = some 7 ∧ parseIntJS "7" = some 7 ∧
    ¬ (7 : Int) < (LEVELS Level.hard).min ∧
    ¬ (7 : Int) > (LEVELS Level.hard).max ∧
    ((makeGuess "7" sHard0).1.isGameActive = false ∧
     (makeGuess "7" sHard0).1.attemptsUsed = sHard0.attemptsUsed + 1 ∧
     (makeGuess "7" sHard0).2 = GuessOutcome.won (sHard0.attemptsUsed + 1)
       (if sHard0.attemptsUsed + 1 ≤ (LEVELS Level.hard).bonusThreshold
        then (LEVELS Level.hard).baseScore + (LEVELS Level.hard).bonusScore
        else (LEVELS Level.hard).baseScore)
       (decide (sHard0.attemptsUsed + 1 ≤ (LEVELS Level.hard).bonusThreshold)) ∧
     (makeGuess "7" sHard0).1.totalScore = sHard0.totalScore +
       (if sHard0.attemptsUsed + 1 ≤ (LEVELS Level.hard).bonusThreshold
        then (LEVELS Level.hard).baseScore + (LEVELS Level.hard).bonusScore
        else (LEVELS Level.hard).baseScore) ∧
     (makeGuess "7" sHard0).1.guessHistory =
       sHard0.guessHistory ++ [{ guess := 7, hint := "✓" }]) :=
  ⟨rfl, rfl, rfl, by decide, by decide, by decide,
   makeGuess_correct_wins sHard0 _ Level.hard 7 7 "7" _ rfl rfl rfl (by decide)
     (by decide) (by decide) rfl rfl⟩

/-- C5: in an active session, an in-range wrong guess that consumes the
last attempt loses the game: the session is deactivated, the total score is
unchanged, the losing guess is appended to the history with the dedicated
cross-mark hint — a marker distinct from both directional arrows and the
win mark — and the outcome is of kind lost. -/
theorem makeGuess_exhausted_lost (s s' : GameState) (level : Level)
    (target g : Int) (input : String) (out : GuessOutcome)
    (hA : s.isGameActive = true) (hL : s.currentLevel = some level)
    (hT : s.targetNumber = some target) (hP : parseIntJS input = some g)
    (hlo : ¬ g < (LEVELS level).min) (hhi : ¬ g > (LEVELS level).max)
    (hne : g ≠ target)
    (hlast : s.attemptsUsed + 1 = (LEVELS level).maxAttempts)
    (hRun : makeGuess input s = (s', out)) :
    s'.isGameActive = false ∧
    s'.totalScore = s.totalScore ∧
    s'.attemptsUsed = s.attemptsUsed + 1 ∧
    s'.guessHistory = s.guessHistory ++ [{ guess := g, hint := "✗" }] ∧
    out = GuessOutcome.lost target (s.attemptsUsed + 1) ∧
    ("✗" : String) ≠ "↑" ∧ ("✗" : String) ≠ "↓" ∧ ("✗" : String) ≠ "✓" := by
  rw [makeGuess_eq_incorrect s level target g input hA hL hT hP hlo hhi hne]
    at hRun
  simp only [handleIncorrectGuess] at hRun
  split at hRun
  next hz =>
    simp only [Prod.mk.injEq] at hRun
    obtain ⟨hs, ho⟩ := hRun
    subst hs
    subst ho
    refine ⟨?_, ?_, ?_, ?_, ?_, by decide, by decide, by decide⟩ <;>
      simp [showFeedback]
  next hz =>
    exfalso
    omega

/-- Witness for C5: losing the hard session on its fifth wrong guess. -/
theorem makeGuess_exhausted_lost_witness :
    sHard4.isGameActive = true ∧ sHard4.currentLevel = some Level.hard ∧
    sHard4.targetNumber = some 7 ∧ parseIntJS "9" = some 9 ∧
    ¬ (9 : Int) < (LEVELS Level.hard).min ∧
    ¬ (9 : Int) > (LEVELS Level.hard).max ∧ (9 : Int) ≠ 7 ∧
    sHard4.attemptsUsed + 1 = (LEVELS Level.hard).maxAttempts ∧
    ((makeGuess "9" sHard4).1.isGameActive = false ∧
     (makeGuess "9" sHard4).1.totalScore = sHard4.totalScore ∧
     (makeGuess "9" sHard4).1.attemptsUsed = sHard4.attemptsUsed + 1 ∧
     (makeGuess "9" sHard4).1.guessHistory =
       sHard4.guessHistory ++ [{ guess := 9, hint := "✗" }] ∧
     (makeGuess "9" sHard4).2 = GuessOutcome.lost 7 (sHard4.attemptsUsed + 1) ∧
     ("✗" : String) ≠ "↑" ∧ ("✗" : String) ≠ "↓" ∧ ("✗" : String) ≠ "✓") :=
  ⟨rfl, rfl, rfl, by decide, by decide, by decide, by decide, by decide,
   makeGuess_exhausted_lost sHard4 _ Level.hard 7 9 "9" _ rfl rfl rfl
     (by decide) (by decide) (by decide) (by decide) (by decide) rfl⟩

/-- C6: in an active session, an in-range wrong guess with attempts still
remaining produces the up-arrow hint exactly when the guess is below the
target and the down-arrow hint exactly when it is above, appends the guess
with that hint to the history, and classifies the outcome as warning when
at most two attempts remain and info otherwise. -/
theorem makeGuess_miss_direction_severity (s s' : GameState) (level : Level)
    (target g : Int) (input : String) (out : GuessOutcome)
    (hA : s.isGameActive = true) (hL : s.currentLevel = some level)
    (hT : s.targetNumber = some target) (hP : parseIntJS input = some g)
    (hlo : ¬ g < (LEVELS level).min) (hhi : ¬ g > (LEVELS level).max)
    (hne : g ≠ target)
    (hleft : s.attemptsUsed + 1 < (LEVELS level).maxAttempts)
    (hRun : makeGuess input s = (s', out)) :
    s'.isGameActive = true ∧
    s'.attemptsUsed = s.attemptsUsed + 1 ∧
    (g < target →
      s'.guessHistory = s.guessHistory ++ [{ guess := g, hint := "↑" }] ∧
      out = GuessOutcome.miss "↑"
        (((LEVELS level).maxAttempts : Int) - ((s.attemptsUsed : Int) + 1))
        (if ((LEVELS level).maxAttempts : Int) - ((s.attemptsUsed : Int) + 1) ≤ 2
         then "warning" else "info")) ∧
    (target < g →
      s'.guessHistory = s.guessHistory ++ [{ guess := g, hint := "↓" }] ∧
      out = GuessOutcome.miss "↓"
        (((LEVELS level).maxAttempts : Int) - ((s.attemptsUsed : Int) + 1))
        (if ((LEVELS level).maxAttempts : Int) - ((s.attemptsUsed : Int) + 1) ≤ 2
         then "warning" else "info")) ∧
    ("↑" : String) ≠ "↓" := by
  rw [makeGuess_eq_incorrect s level target g input hA hL hT hP hlo hhi hne]
    at hRun
  simp only [handleIncorrectGuess] at hRun
  split at hRun
  next hz =>
    exfalso
    omega
  next hz =>
    simp only [Prod.mk.injEq] at hRun
    obtain ⟨hs, ho⟩ := hRun
    subst hs
    subst ho
    refine ⟨by simp [showFeedback, hA], by simp [showFeedback], ?_, ?_,
      by decide⟩
    · intro hgt
      constructor
      · simp [showFeedback, hgt]
      · simp [showFeedback, hgt]
    · intro hgt
      have hng : ¬ g < target := not_lt.mpr (le_of_lt hgt)
      constructor
      · simp [showFeedback, hng]
      · simp [showFeedback, hng]

/-- Witness for C6: guessing 3 against target 7 on the fresh hard session
gives the up-arrow hint with info severity (four attempts left). -/
theorem makeGuess_miss_direction_severity_witness :
    sHard0.isGameActive = true ∧ sHard0.currentLevel = some Level.hard ∧
    sHard0.targetNumber = some 7 ∧ parseIntJS "3" = some 3 ∧
    ¬ (3 : Int) < (LEVELS Level.hard).min ∧
    ¬ (3 : Int) > (LEVELS Level.hard).max ∧ (3 : Int) ≠ 7 ∧
    sHard0.attemptsUsed + 1 < (LEVELS Level.hard).maxAttempts ∧
    ((makeGuess "3" sHard0).1.isGameActive = true ∧
     (makeGuess "3" sHard0).1.attemptsUsed = sHard0.attemptsUsed + 1 ∧
     ((3 : Int) < 7 →
       (makeGuess "3" sHard0).1.guessHistory =
         sHard0.guessHistory ++ [{ guess := 3, hint := "↑" }] ∧
       (makeGuess "3" sHard0).2 = GuessOutcome.miss "↑"
         (((LEVELS Level.hard).maxAttempts : Int) - ((sHard0.attemptsUsed : Int) + 1))
         (if ((LEVELS Level.hard).maxAttempts : Int) -
              ((sHard0.attemptsUsed : Int) + 1) ≤ 2
          then "warning" else "info")) ∧
     ((7 : Int) < 3 →
       (makeGuess "3" sHard0).1.guessHistory =
         sHard0.guessHistory ++ [{ guess := 3, hint := "↓" }] ∧
       (makeGuess "3" sHard0).2 = GuessOutcome.miss "↓"
         (((LEVELS Level.hard).maxAttempts : Int) - ((sHard0.attemptsUsed : Int) + 1))
         (if ((LEVELS Level.hard).maxAttempts : Int) -
              ((sHard0.attemptsUsed : Int) + 1) ≤ 2
          then "warning" else "info")) ∧
     ("↑" : String) ≠ "↓") :=
  ⟨rfl, rfl, rfl, by decide, by decide, by decide, by decide, by decide,
   makeGuess_miss_direction_severity sHard0 _ Level.hard 7 3 "3" _ rfl rfl rfl
     (by decide) (by decide) (by decide) (by decide) (by decide) rfl⟩

/-- C1: over every operation sequence the attempt counter never exceeds the
selected level's budget, and a guess in a well-formed active session that
brings the counter to the budget without winning deactivates the session
and produces the lost outcome. -/
theorem attempts_capped_and_exhaustion_loses :
    (∀ (ops : List EngineOp) (level : Level),
      (run ops).currentLevel = some level →
      (run ops).attemptsUsed ≤ (LEVELS level).maxAttempts) ∧
    (∀ (s s' : GameState) (out : GuessOutcome) (level : Level) (target : Int)
       (input : String),
      sessionInv s = true → s.isGameActive = true →
      s.currentLevel = some level → s.targetNumber = some target →
      makeGuess input s = (s', out) →
      s'.attemptsUsed ≤ (LEVELS level).maxAttempts ∧
      (s'.attemptsUsed = (LEVELS level).maxAttempts →
        (∀ n sc b, out ≠ GuessOutcome.won n sc b) →
        s'.isGameActive = false ∧
        out = GuessOutcome.lost target ((LEVELS level).maxAttempts))) := by
  constructor
  · intro ops level hL
    obtain ⟨h1, h2, h3, h4⟩ := sessionInv_destruct (run_inv ops)
    exact h2 level hL
  · intro s s' out level target input hInv hA hL hT hRun
    obtain ⟨h1, h2, h3, h4⟩ := sessionInv_destruct hInv
    have hlt := h4 hA level hL
    cases hP : parseIntJS input with
    | none =>
      rw [makeGuess_eq_invalid s level target input hA hL hT hP] at hRun
      simp only [Prod.mk.injEq] at hRun
      obtain ⟨hs, ho⟩ := hRun
      subst hs
      subst ho
      constructor
      · simp [showFeedback]
        omega
      · intro hMax _
        simp [showFeedback] at hMax
        omega
    | some g =>
      by_cases hr : g < (LEVELS level).min ∨ g > (LEVELS level).max
      · rw [makeGuess_eq_outOfRange s level target g input hA hL hT hP hr]
          at hRun
        simp only [Prod.mk.injEq] at hRun
        obtain ⟨hs, ho⟩ := hRun
        subst hs
        subst ho
        constructor
        · simp [showFeedback]
          omega
        · intro hMax _
          simp [showFeedback] at hMax
          omega
      · obtain ⟨hlo, hhi⟩ := not_or.mp hr
        by_cases hg : g = target
        · rw [makeGuess_eq_correct s level target g input hA hL hT hP hlo hhi
            hg] at hRun
          simp only [handleCorrectGuess, Prod.mk.injEq] at hRun
          obtain ⟨hs, ho⟩ := hRun
          subst hs
          subst ho
          constructor
          · simp [showFeedback]
            omega
          · intro _ hNW
            exact absurd rfl (hNW _ _ _)
        · rw [makeGuess_eq_incorrect s level target g input hA hL hT hP hlo
            hhi hg] at hRun
          simp only [handleIncorrectGuess] at hRun
          split at hRun
          next hz =>
            simp only [Prod.mk.injEq] at hRun
            obtain ⟨hs, ho⟩ := hRun
            subst hs
            subst ho
            constructor
            · simp [showFeedback]
              omega
            · intro hMax _
              refine ⟨by simp [showFeedback], ?_⟩
              have hEq : s.attemptsUsed + 1 = (LEVELS level).maxAttempts := by
                omega
              simp [showFeedback, hEq]
          next hz =>
            simp only [Prod.mk.injEq] at hRun
            obtain ⟨hs, ho⟩ := hRun
            subst hs
            subst ho
            constructor
            · simp [showFeedback]
              omega
            · intro hMax _
              exfalso
              simp [showFeedback] at hMax
              omega

/-- Witness for C1: capping after one startGame, and the fifth wrong guess
of the hard session losing the game. -/
theorem attempts_capped_and_exhaustion_loses_witness :
    (run [EngineOp.start Level.hard 0]).currentLevel = some Level.hard ∧
    (run [EngineOp.start Level.hard 0]).attemptsUsed ≤
      (LEVELS Level.hard).maxAttempts ∧
    sessionInv sHard4 = true ∧ sHard4.isGameActive = true ∧
    sHard4.currentLevel = some Level.hard ∧ sHard4.targetNumber = some 7 ∧
    ((makeGuess "9" sHard4).1.attemptsUsed ≤ (LEVELS Level.hard).maxAttempts ∧
     ((makeGuess "9" sHard4).1.attemptsUsed = (LEVELS Level.hard).maxAttempts →
       (∀ n sc b, (makeGuess "9" sHard4).2 ≠ GuessOutcome.won n sc b) →
       (makeGuess "9" sHard4).1.isGameActive = false ∧
       (makeGuess "9" sHard4).2 =
         GuessOutcome.lost 7 ((LEVELS Level.hard).maxAttempts))) := by
  refine ⟨by decide, ?_, by decide, rfl, rfl, rfl, ?_⟩
  · exact attempts_capped_and_exhaustion_loses.1 [EngineOp.start Level.hard 0]
      Level.hard (by decide)
  · exact attempts_capped_and_exhaustion_loses.2 sHard4 _ _ Level.hard 7 "9"
      (by decide) rfl rfl rfl rfl

/-- C10: the history length always equals the number of attempts consumed
in the current session: it matches the attempt counter after every
operation sequence, startGame resets both to zero, every in-range guess
increments the counter by one and appends exactly one entry, and
unparseable or out-of-range inputs change neither. -/
theorem history_length_tracks_attempts :
    (∀ ops : List EngineOp,
      (run ops).guessHistory.length = (run ops).attemptsUsed) ∧
    (∀ (level : Level) (rand : ℚ) (s : GameState),
      (startGame level rand s).attemptsUsed = 0 ∧
      (startGame level rand s).guessHistory = []) ∧
    (∀ (s s' : GameState) (out : GuessOutcome) (level : Level)
       (target g : Int) (input : String),
      s.isGameActive = true → s.currentLevel = some level →
      s.targetNumber = some target → parseIntJS input = some g →
      ¬ g < (LEVELS level).min → ¬ g > (LEVELS level).max →
      makeGuess input s = (s', out) →
      s'.attemptsUsed = s.attemptsUsed + 1 ∧
      s'.guessHistory.length = s.guessHistory.length + 1) ∧
    (∀ (s s' : GameState) (out : GuessOutcome) (input : String),
      makeGuess input s = (s', out) → parseIntJS input = none →
      s'.attemptsUsed = s.attemptsUsed ∧ s'.guessHistory = s.guessHistory) ∧
    (∀ (s s' : GameState) (out : GuessOutcome) (level : Level) (g : Int)
       (input : String),
      s.currentLevel = some level → makeGuess input s = (s', out) →
      parseIntJS input = some g →
      (g < (LEVELS level).min ∨ g > (LEVELS level).max) →
      s'.attemptsUsed = s.attemptsUsed ∧ s'.guessHistory = s.guessHistory) := by
  refine ⟨?_, ?_, ?_, ?_, ?_⟩
  · intro ops
    exact (sessionInv_destruct (run_inv ops)).1
  · intro level rand s
    exact ⟨rfl, rfl⟩
  · intro s s' out level target g input hA hL hT hP hlo hhi hRun
    by_cases hg : g = target
    · rw [makeGuess_eq_correct s level target g input hA hL hT hP hlo hhi hg]
        at hRun
      simp only [handleCorrectGuess, Prod.mk.injEq] at hRun
      obtain ⟨hs, ho⟩ := hRun
      subst hs
      exact ⟨by simp [showFeedback], by simp [showFeedback]⟩
    · rw [makeGuess_eq_incorrect s level target g input hA hL hT hP hlo hhi
        hg] at hRun
      simp only [handleIncorrectGuess] at hRun
      split at hRun
      next hz =>
        simp only [Prod.mk.injEq] at hRun
        obtain ⟨hs, ho⟩ := hRun
        subst hs
        exact ⟨by simp [showFeedback], by simp [showFeedback]⟩
      next hz =>
        simp only [Prod.mk.injEq] at hRun
        obtain ⟨hs, ho⟩ := hRun
        subst hs
        exact ⟨by simp [showFeedback], by simp [showFeedback]⟩
  · intro s s' out input hRun hN
    cases hA : s.isGameActive with
    | false =>
      rw [makeGuess_inactive_noop input s hA] at hRun
      simp only [Prod.mk.injEq] at hRun
      obtain ⟨hs, ho⟩ := hRun
      subst hs
      exact ⟨rfl, rfl⟩
    | true =>
      cases hL : s.currentLevel with
      | none =>
        rw [makeGuess] at hRun
        simp [hA, hL] at hRun
        obtain ⟨hs, ho⟩ := hRun
        subst hs
        exact ⟨rfl, rfl⟩
      | some level =>
        cases hT : s.targetNumber with
        | none =>
          rw [makeGuess] at hRun
          simp [hA, hL, hT] at hRun
          obtain ⟨hs, ho⟩ := hRun
          subst hs
          exact ⟨rfl, rfl⟩
        | some target =>
          rw [makeGuess_eq_invalid s level target input hA hL hT hN] at hRun
          simp only [Prod.mk.injEq] at hRun
          obtain ⟨hs, ho⟩ := hRun
          subst hs
          exact ⟨by simp [showFeedback], by simp [showFeedback]⟩
  · intro s s' out level g input hL hRun hP hr
    cases hA : s.isGameActive with
    | false =>
      rw [makeGuess_inactive_noop input s hA] at hRun
      simp only [Prod.mk.injEq] at hRun
      obtain ⟨hs, ho⟩ := hRun
      subst hs
      exact ⟨rfl, rfl⟩
    | true =>
      cases hT : s.targetNumber with
      | none =>
        rw [makeGuess] at hRun
        simp [hA, hL, hT] at hRun
        obtain ⟨hs, ho⟩ := hRun
        subst hs
        exact ⟨rfl, rfl⟩
      | some target =>
        rw [makeGuess_eq_outOfRange s level target g input hA hL hT hP hr]
          at hRun
        simp only [Prod.mk.injEq] at hRun
        obtain ⟨hs, ho⟩ := hRun
        subst hs
        exact ⟨by simp [showFeedback], by simp [showFeedback]⟩

/-- Witness for C10: conjuncts instantiated on the fresh hard session with
the in-range miss "3", the unparseable input "abc" and the out-of-range
input "200". -/
theorem history_length_tracks_attempts_witness :
    (run [EngineOp.start Level.hard 0]).guessHistory.length =
      (run [EngineOp.start Level.hard 0]).attemptsUsed ∧
    ((startGame Level.hard 0 initialGameState).attemptsUsed = 0 ∧
     (startGame Level.hard 0 initialGameState).guessHistory = []) ∧
    ((makeGuess "3" sHard0).1.attemptsUsed = sHard0.attemptsUsed + 1 ∧
     (makeGuess "3" sHard0).1.guessHistory.length =
       sHard0.guessHistory.length + 1) ∧
    ((makeGuess "abc" sHard0).1.attemptsUsed = sHard0.attemptsUsed ∧
     (makeGuess "abc" sHard0).1.guessHistory = sHard0.guessHistory) ∧
    ((makeGuess "200" sHard0).1.attemptsUsed = sHard0.attemptsUsed ∧
     (makeGuess "200" sHard0).1.guessHistory = sHard0.guessHistory) :=
  ⟨history_length_tracks_attempts.1 [EngineOp.start Level.hard 0],
   history_length_tracks_attempts.2.1 Level.hard 0 initialGameState,
   history_length_tracks_attempts.2.2.1 sHard0 _ _ Level.hard 7 3 "3" rfl rfl
     rfl (by decide) (by decide) (by decide) rfl,
   history_length_tracks_attempts.2.2.2.1 sHard0 _ _ "abc" rfl (by decide),
   history_length_tracks_attempts.2.2.2.2 sHard0 _ _ Level.hard 200 "200" rfl
     rfl (by decide) (by decide)⟩
